import Mathlib

/-!
Verification development for the retrieval/ranking core of the
EmailCraft-AI repository (`src/utils/simple_matching.py`,
`src/agents/portfolio_agent.py`, `src/agents/portfolio_agent_lite.py`,
`src/agents/portfolio_agent_pinecone.py`, `src/agents/retrieval_agent.py`).

Python floats are modelled as rationals (`ℚ`), Python `set(str)` as
`Finset String`, fallible operations as `Except String`.
-/

namespace EmailCraft

/-! ### Character classes

`isAlnumCh` is `[a-zA-Z0-9]`; `isWordCh` is Python's regex `\w` on ASCII
(`[a-zA-Z0-9_]`); `isClassCh` is the character class `[a-zA-Z0-9+#]` used by
`tokenize` in `src/utils/simple_matching.py`. -/

def isAlnumCh (c : Char) : Bool := c.isAlpha || c.isDigit

def isWordCh (c : Char) : Bool := isAlnumCh c || c = '_'

def isClassCh (c : Char) : Bool := isAlnumCh c || c = '+' || c = '#'

/-- Wordness of an optional character: a missing character (start/end of the
string) counts as non-word for the purposes of the regex anchor `\b`. -/
def optWord : Option Char → Bool
  | none => false
  | some c => isWordCh c

/-! ### The tokenizer regex

`tokenize` in `src/utils/simple_matching.py` is
`set(re.findall(r'\b[a-zA-Z0-9+#]+\b', text.lower()))`.
We embed the regex scan faithfully: at each position (left to right) a match
attempt first checks the zero-width anchor `\b` (wordness of the previous and
current character differ), then greedily consumes the maximal run of class
characters and backtracks the end of the match to the longest cut at which
`\b` holds again; on failure the scan advances one character. -/

/-- `cutOk run after k`: the anchor `\b` holds after the first `k` characters
of the class-character run `run`, where `after` is the character immediately
following the run in the input (if any). -/
def cutOk (run : List Char) (after : Option Char) (k : Nat) : Bool :=
  match run.get? (k - 1) with
  | none => false
  | some a => isWordCh a != optWord ((run.get? k).orElse (fun _ => after))

/-- Longest end cut `k ≤ bound` (searched longest-first, mirroring regex
backtracking) at which `\b` holds; `none` when no cut of length ≥ 1 works. -/
def bestCutFrom (run : List Char) (after : Option Char) : Nat → Option Nat
  | 0 => none
  | k + 1 => if cutOk run after (k + 1) then some (k + 1) else bestCutFrom run after k

def bestCut (run : List Char) (after : Option Char) : Option Nat :=
  bestCutFrom run after run.length

theorem bestCutFrom_pos (run : List Char) (after : Option Char) :
    ∀ b k, bestCutFrom run after b = some k → 1 ≤ k := by
  intro b
  induction b with
  | zero => intro k h; simp [bestCutFrom] at h
  | succ n ih =>
    intro k h
    simp only [bestCutFrom] at h
    by_cases hc : cutOk run after (n + 1)
    · simp [hc] at h; omega
    · simp [hc] at h; exact ih k h

theorem bestCutFrom_le (run : List Char) (after : Option Char) :
    ∀ b k, bestCutFrom run after b = some k → k ≤ b := by
  intro b
  induction b with
  | zero => intro k h; simp [bestCutFrom] at h
  | succ n ih =>
    intro k h
    simp only [bestCutFrom] at h
    by_cases hc : cutOk run after (n + 1)
    · simp [hc] at h; omega
    · simp [hc] at h; exact Nat.le_succ_of_le (ih k h)

/-- `\b` holds at the current position: the previous character `p` and the
current character `c` differ in wordness. -/
def startBoundary (p : Option Char) (c : Char) : Bool :=
  optWord p != isWordCh c

/-- One left-to-right scan of `re.findall(r'\b[a-zA-Z0-9+#]+\b', ·)` over an
(already lower-cased) character list; `p` is the character preceding the
current position.  The structural `fuel` argument only bounds the number of
scan steps: any `fuel ≥ l.length` yields the complete scan (each step consumes
at least one character), so it carries no semantic content. -/
def scanAux : Nat → Option Char → List Char → List (List Char)
  | 0, _, _ => []
  | fuel + 1, p, l =>
    match l with
    | [] => []
    | c :: rest =>
      if isClassCh c && startBoundary p c then
        let run := (c :: rest).takeWhile isClassCh
        let after := ((c :: rest).dropWhile isClassCh).head?
        match bestCut run after with
        | some k =>
          let tok := run.take k
          tok :: scanAux fuel tok.getLast? ((c :: rest).drop k)
        | none => scanAux fuel (some c) rest
      else scanAux fuel (some c) rest

def scanTokens (p : Option Char) (l : List Char) : List (List Char) :=
  scanAux l.length p l

/-- Python's `str.lower()` (ASCII), char by char. -/
def pyLower (s : String) : String :=
  String.mk (s.data.map Char.toLower)

/-- `tokenize` from `src/utils/simple_matching.py`:
`set(re.findall(r'\b[a-zA-Z0-9+#]+\b', text.lower()))` (the empty string is
caught early in the source and yields the empty set, which coincides with
running the scan on it). -/
def tokenize (text : String) : Finset String :=
  ((scanTokens none (pyLower text).data).map (fun l => String.mk l)).toFinset

/-- `calculate_similarity` from `src/utils/simple_matching.py`: Jaccard index
with an explicit `0.0` when either token set is empty (and the redundant
`union == 0` guard). -/
def calculate_similarity (query_tokens doc_tokens : Finset String) : ℚ :=
  if query_tokens = ∅ ∨ doc_tokens = ∅ then 0
  else
    let intersection := (query_tokens ∩ doc_tokens).card
    let union := (query_tokens ∪ doc_tokens).card
    if union = 0 then 0
    else (intersection : ℚ) / (union : ℚ)

/-! ### String helpers (Python built-ins) -/

/-- `p` is a prefix of `l` (character lists, Python slicing comparison). -/
def charListPfx : List Char → List Char → Bool
  | [], _ => true
  | _ :: _, [] => false
  | a :: xs, b :: ys => a == b && charListPfx xs ys

/-- `n` occurs as a contiguous sublist of `l`. -/
def charListSub : List Char → List Char → Bool
  | n, [] => n.isEmpty
  | n, c :: rest => charListPfx n (c :: rest) || charListSub n rest

/-- Python `needle in hay` on strings (substring containment). -/
def strContains (hay needle : String) : Bool :=
  charListSub needle.data hay.data

/-- Python `s.startswith(p)`. -/
def startsWithS (s p : String) : Bool :=
  charListPfx p.data s.data

/-- Python `str.replace(a, b)` for single characters. -/
def pyReplaceCh (a b : Char) (l : List Char) : List Char :=
  l.map (fun c => if c == a then b else c)

/-- Python `str.split()`: split on whitespace runs, dropping empty pieces;
`cur` is the (reversed) current word. -/
def splitWsAux : List Char → List Char → List (List Char)
  | cur, [] => if cur.isEmpty then [] else [cur.reverse]
  | cur, c :: rest =>
    if c.isWhitespace then
      if cur.isEmpty then splitWsAux [] rest else cur.reverse :: splitWsAux [] rest
    else splitWsAux (c :: cur) rest

def pySplit (s : String) : List String :=
  (splitWsAux [] s.data).map String.mk

/-- Python `str.strip()`. -/
def pyStrip (s : String) : String :=
  String.mk (((s.data.dropWhile Char.isWhitespace).reverse.dropWhile Char.isWhitespace).reverse)

/-- Python `sep.join(parts)`. -/
def joinSep (sep : String) : List String → String
  | [] => ""
  | [x] => x
  | x :: y :: xs => x ++ sep ++ joinSep sep (y :: xs)

/-- Python `min(a, b)` on floats (modelled on `ℚ`). -/
def pyMin (a b : ℚ) : ℚ := if a ≤ b then a else b

/-- Python `max(a, b)` on floats (modelled on `ℚ`). -/
def pyMax (a b : ℚ) : ℚ := if b ≤ a then a else b

/-! ### `keyword_search` (`src/utils/simple_matching.py`)

A document dict is modelled by its `id` and the value of the searched
`text_field`; the result dict `{**doc, "similarity_score": sim}` keeps the
document plus its score.  Python's `list.sort(key=..., reverse=True)` is a
stable descending sort, embedded by `sortDescBy` (ties keep arrival order in
both). -/

instance {ε α : Type} [DecidableEq ε] [DecidableEq α] : DecidableEq (Except ε α) :=
  fun a b =>
    match a, b with
    | .ok x, .ok y => decidable_of_iff (x = y) (by simp)
    | .error x, .error y => decidable_of_iff (x = y) (by simp)
    | .ok _, .error _ => isFalse (fun h => Except.noConfusion h)
    | .error _, .ok _ => isFalse (fun h => Except.noConfusion h)

/-- Python's `list.sort(key=score, reverse=True)` is a *stable* sort by
descending score.  A stable sort by a total preorder is unique as a function,
so it is embedded by `List.insertionSort` (stable, structurally recursive)
with the relation `score b ≤ score a`. -/
def sortDescBy {α : Type} (score : α → ℚ) (l : List α) : List α :=
  List.insertionSort (fun a b => score b ≤ score a) l

structure SearchDoc where
  id : String
  text : String
deriving DecidableEq, Repr

structure ScoredDoc where
  doc : SearchDoc
  similarity_score : ℚ
deriving DecidableEq, Repr

def keyword_search (query : String) (documents : List SearchDoc) (top_k : Nat) :
    List ScoredDoc :=
  let query_tokens := tokenize query
  let results := documents.map (fun doc =>
    ScoredDoc.mk doc (calculate_similarity query_tokens (tokenize doc.text)))
  (sortDescBy ScoredDoc.similarity_score results).take top_k

/-! ### Input schemas (`src/models/schemas.py`) -/

structure ScrapedJobData where
  role : String
  skills : List String := []
  experience : String := ""
  responsibilities : List String := []
  keywords : List String := []
  company : Option String := none
deriving DecidableEq, Repr

structure PersonaOutput where
  pain_points : List String
  decision_drivers : List String
  communication_style : String
  tone : String
  value_focus : String
deriving DecidableEq, Repr

/-! ### Lite portfolio agent (`src/agents/portfolio_agent_lite.py`) -/

/-- `EXCLUDE_KEYWORDS` class constant (a Python set; order irrelevant, used
for substring tests and exact membership tests). -/
def EXCLUDE_KEYWORDS : List String := [
  "benefits", "insurance", "medical", "dental", "vision", "vacation", "pto",
  "paid", "time", "off", "health", "wellness", "retirement", "401k", "bonus",
  "salary", "compensation", "perks", "flexible", "remote", "hybrid", "onsite",
  "team", "culture", "environment", "collaborative", "dynamic", "fast-paced",
  "startup", "company", "office", "equity", "stock", "options", "gym",
  "lunch", "snacks", "meals", "commuter", "relocation", "visa", "sponsorship"]

/-- `ROLE_SKILL_MAP` class constant of the lite agent; a Python dict iterated
in insertion order, so modelled as an ordered association list. -/
def ROLE_SKILL_MAP : List (String × List String) := [
  ("software", ["python", "java", "javascript", "react", "node.js", "sql"]),
  ("full stack", ["react", "node.js", "mongodb", "javascript", "typescript"]),
  ("frontend", ["react", "angular", "vue", "javascript", "typescript", "css"]),
  ("backend", ["python", "java", "node.js", "postgresql", "mongodb", "api"]),
  ("data scientist", ["python", "machine learning", "tensorflow", "pandas", "sql"]),
  ("data engineer", ["python", "sql", "spark", "airflow", "aws", "etl"]),
  ("data analyst", ["sql", "excel", "python", "tableau", "power bi"]),
  ("machine learning", ["python", "tensorflow", "pytorch", "machine learning"]),
  ("devops", ["docker", "kubernetes", "jenkins", "aws", "terraform", "ci/cd"]),
  ("mobile", ["react native", "flutter", "ios", "android", "swift", "kotlin"]),
  ("cloud", ["aws", "azure", "gcp", "kubernetes", "docker", "terraform"]),
  ("marketing", ["seo", "google analytics", "hubspot", "content", "social media"]),
  ("digital marketing", ["seo", "ppc", "google ads", "facebook ads", "analytics"]),
  ("content", ["content writing", "copywriting", "seo", "cms", "wordpress"]),
  ("sales", ["salesforce", "crm", "lead generation", "b2b", "negotiation"]),
  ("account", ["salesforce", "account management", "crm", "client relations"]),
  ("business development", ["lead generation", "crm", "sales", "partnerships"]),
  ("finance", ["excel", "financial modeling", "accounting", "quickbooks", "sap"]),
  ("accountant", ["quickbooks", "excel", "gaap", "tax", "bookkeeping"]),
  ("analyst", ["excel", "sql", "financial analysis", "modeling", "reporting"]),
  ("hr", ["workday", "recruiting", "ats", "employee relations", "hris"]),
  ("recruiter", ["linkedin", "ats", "sourcing", "interviewing", "hiring"]),
  ("designer", ["figma", "adobe", "sketch", "ui/ux", "photoshop"]),
  ("ux", ["figma", "user research", "wireframing", "prototyping", "usability"]),
  ("operations", ["project management", "process improvement", "erp", "logistics"]),
  ("project manager", ["project management", "agile", "scrum", "jira", "pmp"]),
  ("product", ["product management", "agile", "roadmap", "user stories", "jira"])]

/-- `phrase.lower().replace(',', ' ').replace('/', ' ').split()`. -/
def phraseWords (s : String) : List String :=
  pySplit (String.mk (pyReplaceCh '/' ' ' (pyReplaceCh ',' ' ' (pyLower s).data)))

/-- A phrase is dropped when any exclusion term occurs in its lower-cased
form: `any(ex in s.lower() for ex in EXCLUDE_KEYWORDS)`. -/
def phraseExcluded (s : String) : Bool :=
  EXCLUDE_KEYWORDS.any (fun ex => strContains (pyLower s) ex)

/-- Inner word loop shared by the skills and keywords blocks:
`for word in phrase...split(): if len(word) > 2 and word not in EXCLUDE: add`. -/
def addSkillWords (acc : Finset String) (s : String) : Finset String :=
  (phraseWords s).foldl
    (fun a w => if 2 < w.length ∧ EXCLUDE_KEYWORDS.contains w = false then insert w a else a)
    acc

/-- `PortfolioRetrievalAgent._extract_filter_keywords` of the lite agent
(`persona` is accepted but unused, as in the source). -/
def extract_filter_keywords_lite (scraped_job_data : Option ScrapedJobData)
    (persona : Option PersonaOutput) (product : Option String) : Finset String :=
  let fk1 : Finset String :=
    match scraped_job_data with
    | none => ∅
    | some sd =>
      let fkSkills : Finset String :=
        if sd.skills ≠ [] then
          ((sd.skills.take 10).filter (fun s => !(phraseExcluded s))).foldl addSkillWords ∅
        else ∅
      let fkKw : Finset String :=
        if sd.keywords ≠ [] then
          ((sd.keywords.take 8).filter (fun kw => !(phraseExcluded kw))).foldl addSkillWords fkSkills
        else fkSkills
      if fkKw = ∅ ∧ sd.role ≠ "" then
        match ROLE_SKILL_MAP.find? (fun p => strContains (pyLower sd.role) p.1) with
        | some p => fkKw ∪ (p.2.take 4).toFinset
        | none => fkKw
      else fkKw
  match product with
  | some prod =>
    if prod ≠ "" then
      (phraseWords prod).foldl (fun a w => if 2 < w.length then insert w a else a) fk1
    else fk1
  | none => fk1

/-- The `query_parts`/`query_text` construction inside the lite agent's
`retrieve` (lines 193–207 of `portfolio_agent_lite.py`). -/
def buildQueryText_lite (persona : Option PersonaOutput)
    (scraped_job_data : Option ScrapedJobData) (product industry : Option String) : String :=
  let qp : List String := []
  let qp : List String :=
    match scraped_job_data with
    | none => qp
    | some sd =>
      let qp1 := if sd.skills ≠ [] then qp ++ sd.skills.take 8 else qp
      if sd.keywords ≠ [] then qp1 ++ sd.keywords.take 5 else qp1
  let qp : List String :=
    match persona with
    | some pe => if pe.pain_points ≠ [] then qp ++ pe.pain_points.take 2 else qp
    | none => qp
  let qp : List String :=
    match product with
    | some prod => if prod ≠ "" then qp ++ [prod] else qp
    | none => qp
  let qp : List String :=
    match industry with
    | some ind => if ind ≠ "" then qp ++ [ind] else qp
    | none => qp
  joinSep " " qp

structure PortfolioItem where
  id : String
  techstack : String
  link : String
  tokens : Finset String
deriving DecidableEq

/-- Output dict shape shared by the portfolio `retrieve` variants. -/
structure RetrievedItem where
  title : String
  tech_stack : String
  description : String
  outcomes : String
  link : String
  similarity_score : ℚ
deriving DecidableEq, Repr

/-- Lite agent state: `top_k`, `min_similarity` (never read by `retrieve`),
the in-memory `portfolio_items`, and the backing CSV modelled as
`none` (file absent) or `some rows` (`(Techstack, Links)` rows). -/
structure LiteState where
  top_k : Nat
  min_similarity : ℚ := 0
  portfolio_items : List PortfolioItem
  csv : Option (List (String × String)) := none
deriving DecidableEq

def mkPortfolioRetrieved (techstack link : String) (score : ℚ) : RetrievedItem :=
  { title := "Project with " ++ techstack
    tech_stack := techstack
    description := "Portfolio project showcasing expertise in " ++ techstack
    outcomes := "Demonstrated proficiency and practical experience"
    link := link
    similarity_score := score }

/-- `PortfolioRetrievalAgent.retrieve` of the lite agent: keyword filter with
Jaccard score plus a keyword boost `min(0.3, matches * 0.1)`, stable
descending sort, `top_k` truncation, scores capped at `1.0` in the output. -/
def retrieve_lite (st : LiteState) (persona : Option PersonaOutput)
    (scraped_job_data : Option ScrapedJobData) (product industry : Option String) :
    List RetrievedItem :=
  if st.portfolio_items = [] then []
  else
    let filter_keywords := extract_filter_keywords_lite scraped_job_data persona product
    let query_tokens := tokenize (buildQueryText_lite persona scraped_job_data product industry)
    let scored_items : List (PortfolioItem × ℚ) := st.portfolio_items.filterMap (fun item =>
      let techstack_lower := pyLower item.techstack
      let matched := filter_keywords.filter (fun kw => strContains techstack_lower kw = true)
      if filter_keywords = ∅ ∨ matched.Nonempty then
        let similarity := calculate_similarity query_tokens item.tokens
        let keyword_boost : ℚ := pyMin (3 / 10) ((matched.card : ℚ) * (1 / 10))
        some (item, similarity + keyword_boost)
      else none)
    let sorted := sortDescBy Prod.snd scored_items
    (sorted.take st.top_k).map (fun e => mkPortfolioRetrieved e.1.techstack e.1.link (pyMin 1 e.2))

/-- `PortfolioRetrievalAgent.add_portfolio_item` of the lite agent; the raised
`ValueError`s become `Except.error`, and the CSV append happens only when the
backing file exists (`self.portfolio_path.exists()`). -/
def add_portfolio_item_lite (st : LiteState) (techstack link : String) :
    Except String LiteState :=
  if pyStrip techstack = "" then .error "Techstack cannot be empty"
  else if !(startsWithS link "http://" || startsWithS link "https://") then
    .error "Link must start with http:// or https://"
  else
    let new_item : PortfolioItem :=
      { id := "portfolio_" ++ toString st.portfolio_items.length
        techstack := techstack
        link := link
        tokens := tokenize techstack }
    .ok { st with
          portfolio_items := st.portfolio_items ++ [new_item]
          csv := st.csv.map (fun rows => rows ++ [(techstack, link)]) }

/-! ### Full portfolio agent (`src/agents/portfolio_agent.py`)

The vector-store collection is abstracted as the backend function
`query_text ↦ n_results ↦` rows; the per-query parallel arrays
(`ids`/`metadatas`/`distances`) are modelled as a single list of
`(metadata, distance)` rows (the ids are not read by the ranking loop).
A raising backend query is an `Except.error`. -/

structure Meta where
  techstack : String
  link : String
deriving DecidableEq, Repr

/-- `REAL_TECH_SKILLS` local constant of `retrieve` (a set; membership only). -/
def REAL_TECH_SKILLS : List String := [
  "python", "java", "javascript", "react", "node", "angular", "vue",
  "typescript", "sql", "mongodb", "postgresql", "mysql", "docker",
  "kubernetes", "aws", "azure", "gcp", "spring", "django", "flask",
  "tensorflow", "pytorch", "c++", "c#", "ruby", "go", "rust", "php",
  "html", "css", "graphql", "redis", "elasticsearch", "kafka",
  "git", "linux", "jenkins", "terraform", "ansible", "ci/cd",
  "figma", "photoshop", "salesforce", "hubspot", "excel", "tableau",
  "power bi", "sap", "oracle", "workday", "jira", "confluence"]

/-- `role_skill_map` local constant of the full agent's `retrieve`
(insertion-ordered dict). -/
def ROLE_SKILL_MAP_FULL : List (String × List String) := [
  ("software", ["python", "java", "javascript", "react", "node.js", "sql", "backend", "frontend"]),
  ("engineer", ["python", "java", "javascript", "sql", "docker", "aws"]),
  ("developer", ["python", "java", "javascript", "react", "node.js", "sql"]),
  ("full stack", ["react", "node.js", "mongodb", "javascript", "typescript"]),
  ("frontend", ["react", "angular", "vue", "javascript", "typescript", "css"]),
  ("backend", ["python", "java", "node.js", "postgresql", "mongodb", "api"]),
  ("data scientist", ["python", "machine learning", "tensorflow", "pandas", "sql"]),
  ("data engineer", ["python", "sql", "spark", "airflow", "aws", "etl"]),
  ("data analyst", ["sql", "excel", "python", "tableau", "power bi"]),
  ("machine learning", ["python", "tensorflow", "pytorch", "machine learning"]),
  ("devops", ["docker", "kubernetes", "jenkins", "aws", "terraform", "ci/cd"]),
  ("mobile", ["react native", "flutter", "ios", "android", "swift", "kotlin"]),
  ("cloud", ["aws", "azure", "gcp", "kubernetes", "docker", "terraform"]),
  ("marketing", ["seo", "google analytics", "hubspot", "content", "social media"]),
  ("digital marketing", ["seo", "ppc", "google ads", "facebook ads", "analytics"]),
  ("content", ["content writing", "copywriting", "seo", "cms", "wordpress"]),
  ("social media", ["social media", "instagram", "tiktok", "content creation"]),
  ("sales", ["salesforce", "crm", "lead generation", "b2b", "negotiation"]),
  ("account", ["salesforce", "account management", "crm", "client relations"]),
  ("business development", ["lead generation", "crm", "sales", "partnerships"]),
  ("finance", ["excel", "financial modeling", "accounting", "quickbooks", "sap"]),
  ("accountant", ["quickbooks", "excel", "gaap", "tax", "bookkeeping"]),
  ("analyst", ["excel", "sql", "financial analysis", "modeling", "reporting"]),
  ("hr", ["workday", "recruiting", "ats", "employee relations", "hris"]),
  ("recruiter", ["linkedin", "ats", "sourcing", "interviewing", "hiring"]),
  ("talent", ["recruiting", "talent acquisition", "ats", "sourcing"]),
  ("designer", ["figma", "adobe", "sketch", "ui/ux", "photoshop"]),
  ("ux", ["figma", "user research", "wireframing", "prototyping", "usability"]),
  ("graphic", ["photoshop", "illustrator", "indesign", "branding", "design"]),
  ("operations", ["project management", "process improvement", "erp", "logistics"]),
  ("project manager", ["project management", "agile", "scrum", "jira", "pmp"]),
  ("product", ["product management", "agile", "roadmap", "user stories", "jira"]),
  ("supply chain", ["supply chain", "logistics", "inventory", "erp", "procurement"]),
  ("nurse", ["patient care", "emr", "clinical", "nursing", "healthcare"]),
  ("healthcare", ["emr", "hipaa", "patient care", "clinical", "medical"]),
  ("medical", ["medical coding", "emr", "healthcare", "clinical", "patient"]),
  ("teacher", ["curriculum", "instruction", "classroom", "education", "teaching"]),
  ("instructor", ["training", "curriculum", "lms", "e-learning", "instruction"]),
  ("customer", ["customer service", "crm", "zendesk", "support", "communication"]),
  ("support", ["customer support", "ticketing", "zendesk", "troubleshooting"])]

/-- `default_skills` used when no `role_skill_map` key matches but the role
mentions software/engineer/developer. -/
def DEFAULT_SOFTWARE_SKILLS : List String :=
  ["python", "java", "javascript", "react", "sql", "node.js"]

/-- `COMMON_SKILL_KEYWORDS` local constant of the ranking loop. -/
def COMMON_SKILL_KEYWORDS : List String := [
  "python", "java", "javascript", "react", "node", "angular", "vue",
  "typescript", "sql", "mongodb", "postgresql", "mysql", "docker",
  "kubernetes", "aws", "azure", "gcp", "spring", "django", "flask",
  "tensorflow", "pytorch", "machine", "learning", "backend", "frontend",
  "full-stack", "fullstack", "mobile", "ios", "android", "kotlin", "swift",
  "seo", "analytics", "hubspot", "marketing", "content", "social",
  "advertising", "ppc", "campaigns", "branding",
  "salesforce", "crm", "sales", "b2b", "lead", "account",
  "excel", "financial", "accounting", "quickbooks", "sap", "modeling",
  "recruiting", "workday", "ats", "talent", "hiring",
  "figma", "adobe", "photoshop", "illustrator", "ui", "ux", "design",
  "agile", "scrum", "jira", "project", "management", "pmp",
  "communication", "leadership", "strategy", "analysis", "reporting"]

/-- The `query_parts`/`filter_keywords` construction of the full agent's
`retrieve` (lines 145–295 of `portfolio_agent.py`), returning the list of
query parts (joined by the caller) and the filter-keyword set. -/
def buildQueryFull (persona : Option PersonaOutput) (scraped_job_data : Option ScrapedJobData)
    (product industry : Option String) : List String × Finset String :=
  let qp : List String := []
  let fk : Finset String := ∅
  let step1 : List String × Finset String :=
    match scraped_job_data with
    | none => (qp, fk)
    | some sd =>
      let s1 : List String × Finset String :=
        if sd.skills ≠ [] then
          let tech_skills := (sd.skills.take 10).filter (fun s => !(phraseExcluded s))
          if tech_skills ≠ [] then
            (qp ++ [joinSep " " (tech_skills.take 8)], tech_skills.foldl addSkillWords fk)
          else (qp, fk)
        else (qp, fk)
      let s2 : List String × Finset String :=
        if sd.keywords ≠ [] then
          let tech_keywords := (sd.keywords.take 8).filter (fun kw => !(phraseExcluded kw))
          if tech_keywords ≠ [] then
            (s1.1 ++ [joinSep " " (tech_keywords.take 5)], tech_keywords.foldl addSkillWords s1.2)
          else s1
        else s1
      let s3 : List String × Finset String :=
        if sd.responsibilities ≠ [] then
          let tech_resp := (sd.responsibilities.take 3).filter (fun r => !(phraseExcluded r))
          if tech_resp ≠ [] then (s2.1 ++ [joinSep " " (tech_resp.take 2)], s2.2) else s2
        else s2
      if sd.role ≠ "" then
        let role_lower := pyLower sd.role
        if ∃ kw ∈ s3.2, REAL_TECH_SKILLS.contains kw = true then s3
        else
          match ROLE_SKILL_MAP_FULL.find? (fun p => strContains role_lower p.1) with
          | some p => (s3.1 ++ [joinSep " " (p.2.take 5)], (p.2.take 5).toFinset)
          | none =>
            if strContains role_lower "software" || strContains role_lower "engineer" ||
                strContains role_lower "developer" then
              (s3.1 ++ [joinSep " " DEFAULT_SOFTWARE_SKILLS], DEFAULT_SOFTWARE_SKILLS.toFinset)
            else (s3.1, ∅)
      else s3
  let step2 : List String :=
    match persona with
    | none => step1.1
    | some pe =>
      let q1 :=
        if pe.pain_points ≠ [] then
          let tech_pain_points := (pe.pain_points.take 2).filter (fun p => !(phraseExcluded p))
          if tech_pain_points ≠ [] then step1.1 ++ [joinSep " " tech_pain_points] else step1.1
        else step1.1
      if pe.value_focus ≠ "" then q1 ++ [pe.value_focus] else q1
  let step3 : List String × Finset String :=
    match product with
    | none => (step2, step1.2)
    | some prod =>
      if prod ≠ "" then
        (step2 ++ [prod],
         (phraseWords prod).foldl (fun a w => if 2 < w.length then insert w a else a) step1.2)
      else (step2, step1.2)
  let step4 : List String :=
    match industry with
    | none => step3.1
    | some ind => if ind ≠ "" then step3.1 ++ [ind] else step3.1
  (step4, step3.2)

def mkRetrievedFull (m : Meta) (distance : ℚ) : RetrievedItem :=
  { title := "Project with " ++ m.techstack
    tech_stack := m.techstack
    description := "Portfolio project showcasing expertise in " ++ m.techstack
    outcomes := "Demonstrated proficiency and practical experience"
    link := m.link
    similarity_score := pyMax 0 (pyMin 1 (1 - distance)) }

/-- The ranking loop of the full agent's `retrieve` (lines 342–403): keyword
filter with a `distance < 0.8` common-keyword fallback, early break once
`top_k` items are accepted, similarity clamped by
`max(0.0, min(1.0, 1.0 - distance))`. -/
def rankLoopFull (filter_keywords : Finset String) (top_k : Nat) :
    List (Meta × ℚ) → List RetrievedItem → List RetrievedItem
  | [], acc => acc
  | (m, distance) :: rest, acc =>
    let techstack_lower := pyLower m.techstack
    let matches_keyword : Prop :=
      if filter_keywords = ∅ then True
      else
        (∃ kw ∈ filter_keywords, strContains techstack_lower kw = true) ∨
          (distance < 8 / 10 ∧
            COMMON_SKILL_KEYWORDS.any (fun ckw => strContains techstack_lower ckw) = true)
    if matches_keyword then
      if top_k ≤ acc.length then acc
      else rankLoopFull filter_keywords top_k rest (acc ++ [mkRetrievedFull m distance])
    else rankLoopFull filter_keywords top_k rest acc

/-- `PortfolioRetrievalAgent.retrieve` of the full (vector-store) agent:
empty-query short-circuit, over-fetch `min(top_k * 3, 10)`, backend error
caught and turned into `[]`, then the ranking loop. -/
def retrieve_full (top_k : Nat) (backend : String → Nat → Except String (List (Meta × ℚ)))
    (persona : Option PersonaOutput) (scraped_job_data : Option ScrapedJobData)
    (product industry : Option String) : List RetrievedItem :=
  let built := buildQueryFull persona scraped_job_data product industry
  let query_text := joinSep " " built.1
  if pyStrip query_text = "" then []
  else
    match backend query_text (min (top_k * 3) 10) with
    | .error _ => []
    | .ok rows => rankLoopFull built.2 top_k rows []

structure FullState where
  top_k : Nat
  collection : List (String × String × Meta)
  csv : Option (List (String × String)) := none
deriving DecidableEq

/-- `PortfolioRetrievalAgent.add_portfolio_item` of the full agent:
validation, `portfolio_{count}` id, collection append, CSV append only when
the backing file exists. -/
def add_portfolio_item_full (st : FullState) (techstack link : String) :
    Except String FullState :=
  if pyStrip techstack = "" then .error "Techstack cannot be empty"
  else if !(startsWithS link "http://" || startsWithS link "https://") then
    .error "Link must start with http:// or https://"
  else
    let portfolio_id := "portfolio_" ++ toString st.collection.length
    .ok { st with
          collection := st.collection ++ [(portfolio_id, techstack, Meta.mk techstack link)]
          csv := st.csv.map (fun rows => rows ++ [(techstack, link)]) }

/-! ### Template retrieval agent (`src/agents/retrieval_agent.py`)

Backend rows are `(id, distance)` pairs; the templates JSON file is `none`
when absent.  The backend query at line 131 is *not* wrapped in try/except,
so a raising query propagates (`Except.error`). -/

structure EmailTemplate where
  id : String
  title : String
  industry : String
  use_case : String
  subject_line : String
  body : String
  cta : String
  performance_score : ℚ
deriving DecidableEq, Repr

structure RetrievedTemplate where
  template : EmailTemplate
  similarity_score : ℚ
deriving DecidableEq, Repr

def retrieve_template (top_k : Nat) (templates_file : Option (List EmailTemplate))
    (backend : String → Nat → Except String (List (String × ℚ)))
    (persona : PersonaOutput) (product industry : String) :
    Except String (List RetrievedTemplate) :=
  let query_text := industry ++ " " ++ product ++ " " ++ persona.value_focus ++ " " ++
    joinSep ", " persona.pain_points ++ " " ++ persona.communication_style
  match backend query_text top_k with
  | .error e => .error e
  | .ok rows =>
    match templates_file with
    | none => .ok []
    | some temps =>
      .ok (rows.filterMap (fun r =>
        match temps.find? (fun t => t.id == r.1) with
        | some t => some (RetrievedTemplate.mk t (pyMax 0 (pyMin 1 (1 - r.2))))
        | none => none))

/-! ### Pinecone portfolio agent (`src/agents/portfolio_agent_pinecone.py`)

The Pinecone query returns matches carrying a metadata dict and a raw
`score`, which `retrieve` passes through unmodified as `similarity_score`. -/

structure PineMatch where
  metadata : Meta
  score : ℚ
deriving DecidableEq, Repr

/-- The `query_parts` construction of the Pinecone agent's `retrieve`
(lines 96–124). -/
def buildQueryPine (persona : Option PersonaOutput) (scraped_job_data : Option ScrapedJobData)
    (product industry : Option String) : List String :=
  let qp : List String := []
  let qp : List String :=
    match scraped_job_data with
    | none => qp
    | some sd =>
      let q1 :=
        if sd.skills ≠ [] then
          let tech_skills := (sd.skills.take 10).filter (fun s => !(phraseExcluded s))
          if tech_skills ≠ [] then qp ++ tech_skills.take 8 else qp
        else qp
      let q2 :=
        if sd.keywords ≠ [] then
          let tech_keywords := (sd.keywords.take 8).filter (fun kw => !(phraseExcluded kw))
          if tech_keywords ≠ [] then q1 ++ tech_keywords.take 5 else q1
        else q1
      if sd.role ≠ "" then q2 ++ [sd.role] else q2
  let qp : List String :=
    match persona with
    | some pe => if pe.pain_points ≠ [] then qp ++ pe.pain_points.take 2 else qp
    | none => qp
  let qp : List String :=
    match product with
    | some prod => if prod ≠ "" then qp ++ [prod] else qp
    | none => qp
  match industry with
  | some ind => if ind ≠ "" then qp ++ [ind] else qp
  | none => qp

def formatPineMatch (m : PineMatch) : RetrievedItem :=
  { title := "Project with " ++ m.metadata.techstack
    tech_stack := m.metadata.techstack
    description := "Portfolio project showcasing expertise in " ++ m.metadata.techstack
    outcomes := "Demonstrated proficiency and practical experience"
    link := m.metadata.link
    similarity_score := m.score }

def retrieve_pinecone (top_k : Nat) (backend : String → Nat → List PineMatch)
    (persona : Option PersonaOutput) (scraped_job_data : Option ScrapedJobData)
    (product industry : Option String) : List RetrievedItem :=
  let query_text := joinSep " " (buildQueryPine persona scraped_job_data product industry)
  if pyStrip query_text = "" then []
  else (backend query_text top_k).map formatPineMatch

/-! ## Theorems -/

theorem calculate_similarity_eq_div (a b : Finset String) :
    calculate_similarity a b = ((a ∩ b).card : ℚ) / ((a ∪ b).card : ℚ) := by
  unfold calculate_similarity
  by_cases h : a = ∅ ∨ b = ∅
  · rw [if_pos h]
    rcases h with h | h <;> subst h <;> simp
  · rw [if_neg h]
    push_neg at h
    have hu : ¬((a ∪ b).card = 0) := fun h0 =>
      h.1 (Finset.union_eq_empty.mp (Finset.card_eq_zero.mp h0)).1
    rw [if_neg hu]

theorem calculate_similarity_empty (a b : Finset String) (h : a = ∅ ∨ b = ∅) :
    calculate_similarity a b = 0 := by
  unfold calculate_similarity
  rw [if_pos h]

theorem calculate_similarity_nonneg (a b : Finset String) :
    0 ≤ calculate_similarity a b := by
  rw [calculate_similarity_eq_div]
  positivity

theorem calculate_similarity_le_one (a b : Finset String) :
    calculate_similarity a b ≤ 1 := by
  rw [calculate_similarity_eq_div]
  rcases Nat.eq_zero_or_pos (a ∪ b).card with h | h
  · simp [h]
  · rw [div_le_one (by exact_mod_cast h)]
    exact_mod_cast Finset.card_le_card Finset.inter_subset_union

theorem calculate_similarity_comm (a b : Finset String) :
    calculate_similarity a b = calculate_similarity b a := by
  rw [calculate_similarity_eq_div, calculate_similarity_eq_div,
    Finset.inter_comm, Finset.union_comm]

theorem calculate_similarity_eq_one_iff (a b : Finset String) :
    calculate_similarity a b = 1 ↔ a = b ∧ a ≠ ∅ := by
  constructor
  · intro h1
    by_cases he : a = ∅ ∨ b = ∅
    · rw [calculate_similarity_empty a b he] at h1
      exact absurd h1 (by norm_num)
    · push_neg at he
      rw [calculate_similarity_eq_div] at h1
      have hu : ((a ∪ b).card : ℚ) ≠ 0 := by
        have hne : (a ∪ b).card ≠ 0 := fun h0 =>
          he.1 (Finset.union_eq_empty.mp (Finset.card_eq_zero.mp h0)).1
        exact_mod_cast hne
      rw [div_eq_one_iff_eq hu] at h1
      have hcard : (a ∪ b).card ≤ (a ∩ b).card := le_of_eq (by exact_mod_cast h1.symm)
      have heq : a ∩ b = a ∪ b :=
        Finset.eq_of_subset_of_card_le Finset.inter_subset_union hcard
      have hab : a ⊆ b := fun x hx =>
        (Finset.mem_inter.mp (heq ▸ Finset.mem_union_left b hx)).2
      have hba : b ⊆ a := fun x hx =>
        (Finset.mem_inter.mp (heq ▸ Finset.mem_union_right a hx)).1
      exact ⟨Finset.Subset.antisymm hab hba, he.1⟩
  · rintro ⟨rfl, hne⟩
    rw [calculate_similarity_eq_div]
    simp only [Finset.inter_self, Finset.union_self]
    have h0 : a.card ≠ 0 := Finset.card_ne_zero.mpr (Finset.nonempty_iff_ne_empty.mpr hne)
    exact div_self (by exact_mod_cast h0)

/-- C1: `calculate_similarity(a, b)` equals the Jaccard index
`|a ∩ b| / |a ∪ b|` for all token sets, is exactly `0.0` when either set is
empty, always lies in `[0.0, 1.0]`, is symmetric, and equals `1.0` exactly
when the sets are identical and non-empty. -/
theorem C1_similarity_scorer (a b : Finset String) :
    calculate_similarity a b = ((a ∩ b).card : ℚ) / ((a ∪ b).card : ℚ) ∧
    ((a = ∅ ∨ b = ∅) → calculate_similarity a b = 0) ∧
    0 ≤ calculate_similarity a b ∧ calculate_similarity a b ≤ 1 ∧
    calculate_similarity a b = calculate_similarity b a ∧
    (calculate_similarity a b = 1 ↔ a = b ∧ a ≠ ∅) :=
  ⟨calculate_similarity_eq_div a b, calculate_similarity_empty a b,
   calculate_similarity_nonneg a b, calculate_similarity_le_one a b,
   calculate_similarity_comm a b, calculate_similarity_eq_one_iff a b⟩

theorem C1_similarity_scorer_witness :
    calculate_similarity ∅ {"python"} = 0 ∧
    calculate_similarity {"python"} {"python"} = 1 :=
  ⟨(C1_similarity_scorer ∅ {"python"}).2.1 (Or.inl rfl),
   (C1_similarity_scorer {"python"} {"python"}).2.2.2.2.2.mpr ⟨rfl, by decide⟩⟩

theorem sortDescBy_perm {α : Type} (score : α → ℚ) (l : List α) :
    List.Perm (sortDescBy score l) l :=
  List.perm_insertionSort _ l

theorem sortDescBy_sorted {α : Type} (score : α → ℚ) (l : List α) :
    (sortDescBy score l).Sorted (fun a b => score b ≤ score a) := by
  haveI : IsTotal α (fun a b => score b ≤ score a) := ⟨fun a b => le_total (score b) (score a)⟩
  haveI : IsTrans α (fun a b => score b ≤ score a) := ⟨fun a b c h1 h2 => le_trans h2 h1⟩
  exact List.sorted_insertionSort _ l

theorem pyMin_mono_right (c : ℚ) {a b : ℚ} (h : a ≤ b) : pyMin c a ≤ pyMin c b := by
  unfold pyMin
  split_ifs <;> linarith

theorem keyword_search_length_le (query : String) (documents : List SearchDoc) (top_k : Nat) :
    (keyword_search query documents top_k).length ≤ top_k := by
  unfold keyword_search
  exact List.length_take_le top_k _

theorem keyword_search_sorted (query : String) (documents : List SearchDoc) (top_k : Nat) :
    (keyword_search query documents top_k).Sorted
      (fun a b => b.similarity_score ≤ a.similarity_score) := by
  unfold keyword_search
  exact (sortDescBy_sorted ScoredDoc.similarity_score _).sublist (List.take_sublist _ _)

theorem keyword_search_nodup_ids (query : String) (documents : List SearchDoc) (top_k : Nat)
    (hn : (documents.map SearchDoc.id).Nodup) :
    ((keyword_search query documents top_k).map (fun s => s.doc.id)).Nodup := by
  unfold keyword_search
  rw [List.map_take]
  refine List.Nodup.sublist (List.take_sublist _ _) ?_
  have hperm := (sortDescBy_perm ScoredDoc.similarity_score
    (documents.map (fun doc =>
      ScoredDoc.mk doc (calculate_similarity (tokenize query) (tokenize doc.text))))).map
    (fun s => s.doc.id)
  rw [hperm.nodup_iff]
  rw [List.map_map]
  exact hn

/-- C2: the lexical ranking (`keyword_search`, and the lite portfolio agent's
`retrieve`) returns at most `top_k` items, sorted by descending
`similarity_score`; and `keyword_search` over documents with pairwise
distinct ids (as a loaded store guarantees) returns no two items sharing an
id (the lite `retrieve`'s output dicts carry no id field). -/
theorem C2_lexical_ranking :
    (∀ (query : String) (documents : List SearchDoc) (top_k : Nat),
      (keyword_search query documents top_k).length ≤ top_k ∧
      (keyword_search query documents top_k).Sorted
        (fun a b => b.similarity_score ≤ a.similarity_score) ∧
      ((documents.map SearchDoc.id).Nodup →
        ((keyword_search query documents top_k).map (fun s => s.doc.id)).Nodup)) ∧
    (∀ (st : LiteState) (persona : Option PersonaOutput) (sd : Option ScrapedJobData)
        (product industry : Option String),
      (retrieve_lite st persona sd product industry).length ≤ st.top_k ∧
      (retrieve_lite st persona sd product industry).Sorted
        (fun a b => b.similarity_score ≤ a.similarity_score)) := by
  constructor
  · intro query documents top_k
    exact ⟨keyword_search_length_le query documents top_k,
      keyword_search_sorted query documents top_k,
      keyword_search_nodup_ids query documents top_k⟩
  · intro st persona sd product industry
    unfold retrieve_lite
    split
    · simp
    · constructor
      · rw [List.length_map]
        exact List.length_take_le st.top_k _
      · refine List.Pairwise.map _ (fun a b hab => ?_)
          (((sortDescBy_sorted Prod.snd _).sublist (List.take_sublist _ _)))
        exact pyMin_mono_right 1 hab

theorem C2_lexical_ranking_witness :
    ((keyword_search "python" [SearchDoc.mk "a" "python", SearchDoc.mk "b" "java"] 1).map
      (fun s => s.doc.id)).Nodup :=
  (C2_lexical_ranking.1 "python" [SearchDoc.mk "a" "python", SearchDoc.mk "b" "java"] 1).2.2
    (by decide)

/-- C3 counterexample: with a raising backend, the template agent's
`retrieve` propagates the backend error instead of returning an empty
result list. -/
theorem C3_counterexample :
    retrieve_template 3 (some []) (fun _ _ => Except.error "backend down")
        (PersonaOutput.mk ["scaling"] [] "direct" "professional" "reliability")
        "product" "Technology" =
      Except.error "backend down" ∧
    retrieve_template 3 (some []) (fun _ _ => Except.error "backend down")
        (PersonaOutput.mk ["scaling"] [] "direct" "professional" "reliability")
        "product" "Technology" ≠
      Except.ok [] := by
  exact ⟨rfl, by decide⟩

/-- C3 (amended): when the backend's query call raises, the full (vector
store) portfolio agent's `retrieve` catches the error and returns the empty
list, while the template agent's `retrieve` propagates the error to its
caller. -/
theorem C3_backend_error_handling (e : String) (top_k₁ top_k₂ : Nat)
    (templates_file : Option (List EmailTemplate))
    (persona₁ : Option PersonaOutput) (sd : Option ScrapedJobData)
    (product industry : Option String)
    (persona₂ : PersonaOutput) (product₂ industry₂ : String) :
    retrieve_full top_k₁ (fun _ _ => Except.error e) persona₁ sd product industry = [] ∧
    retrieve_template top_k₂ templates_file (fun _ _ => Except.error e)
      persona₂ product₂ industry₂ = Except.error e := by
  constructor
  · unfold retrieve_full
    dsimp only
    split
    · rfl
    · rfl
  · unfold retrieve_template
    rfl

theorem retrieve_lite_noinput (st : LiteState) :
    (retrieve_lite st none none none none).map RetrievedItem.similarity_score =
      List.replicate (min st.top_k st.portfolio_items.length) 0 := by
  have hfk : extract_filter_keywords_lite none none none = ∅ := rfl
  have hqt : tokenize (buildQueryText_lite none none none none) = ∅ := by decide
  have hmin : pyMin (3/10 : ℚ) 0 = 0 := by norm_num [pyMin]
  have hmin1 : pyMin (1 : ℚ) 0 = 0 := by norm_num [pyMin]
  unfold retrieve_lite
  split
  · rename_i h
    rw [h]
    simp
  · rename_i h
    rw [hfk, hqt]
    dsimp only
    have hsc : st.portfolio_items.filterMap (fun item =>
        if (∅ : Finset String) = ∅ ∨ ((∅ : Finset String).filter
            (fun kw => strContains (pyLower item.techstack) kw = true)).Nonempty then
          some (item, calculate_similarity ∅ item.tokens +
            pyMin (3/10) ((((∅ : Finset String).filter
              (fun kw => strContains (pyLower item.techstack) kw = true)).card : ℚ) * (1/10)))
        else none) = st.portfolio_items.map (fun item => (item, (0 : ℚ))) := by
      have hfun : (fun item : PortfolioItem =>
          if (∅ : Finset String) = ∅ ∨ ((∅ : Finset String).filter
              (fun kw => strContains (pyLower item.techstack) kw = true)).Nonempty then
            some (item, calculate_similarity ∅ item.tokens +
              pyMin (3/10) ((((∅ : Finset String).filter
                (fun kw => strContains (pyLower item.techstack) kw = true)).card : ℚ) * (1/10)))
          else none) = (fun item : PortfolioItem => some (item, (0 : ℚ))) := by
        funext item
        rw [if_pos (Or.inl rfl)]
        rw [calculate_similarity_empty _ _ (Or.inl rfl), Finset.filter_empty]
        norm_num [hmin]
      rw [hfun]
      exact congrFun (List.filterMap_eq_map _) st.portfolio_items
    rw [hsc]
    rw [List.map_map]
    refine List.eq_replicate_iff.mpr ⟨?_, ?_⟩
    · rw [List.length_map, List.length_take, (sortDescBy_perm Prod.snd _).length_eq, List.length_map]
    · intro b hb
      rw [List.mem_map] at hb
      obtain ⟨e, he, rfl⟩ := hb
      have he2 : e ∈ sortDescBy Prod.snd (st.portfolio_items.map (fun item => (item, (0:ℚ)))) :=
        List.mem_of_mem_take he
      rw [(sortDescBy_perm Prod.snd _).mem_iff, List.mem_map] at he2
      obtain ⟨i, _, rfl⟩ := he2
      simpa [mkPortfolioRetrieved] using hmin1

/-- C4 counterexample: a lite-agent state with a non-empty loaded corpus, on
`retrieve()` with no persona, no job data, no product and no industry,
returns a non-empty sequence (one item per loaded document up to `top_k`),
not the empty sequence. -/
theorem C4_counterexample :
    retrieve_lite
        (LiteState.mk 3 0
          [PortfolioItem.mk "portfolio_0" "Python" "https://github.com/u/p" (tokenize "Python")]
          none)
        none none none none ≠ [] := by
  decide

/-- C4 (amended): with no persona, no job data, no product and no industry,
the vector-store and Pinecone portfolio agents return the empty sequence for
every backend (the short-circuit fires before any query); the lite agent has
no such short-circuit and instead returns `min(top_k, |items|)` items, all
with similarity score `0`. -/
theorem C4_empty_query_short_circuit :
    (∀ (top_k : Nat) (backend : String → Nat → Except String (List (Meta × ℚ))),
      retrieve_full top_k backend none none none none = []) ∧
    (∀ (top_k : Nat) (backend : String → Nat → List PineMatch),
      retrieve_pinecone top_k backend none none none none = []) ∧
    (∀ st : LiteState,
      (retrieve_lite st none none none none).map RetrievedItem.similarity_score =
        List.replicate (min st.top_k st.portfolio_items.length) 0) :=
  ⟨fun _ _ => rfl, fun _ _ => rfl, retrieve_lite_noinput⟩

/-- C5 counterexample: for `skills = []`, `role = "Senior Data Scientist"`,
the role-skill table entry inserts the single two-word phrase
`"machine learning"` into `filter_keywords` (both agents), so the set is not
a subset of `{"python","machine","learning","tensorflow","pandas","sql"}`;
moreover the lite agent's retrieve-level `query_text` is empty for this
input (the role-derived query parts are local to keyword extraction). -/
theorem C5_counterexample :
    "machine learning" ∈ extract_filter_keywords_lite
        (some (ScrapedJobData.mk "Senior Data Scientist" [] "" [] [] none)) none none ∧
    ¬(extract_filter_keywords_lite
        (some (ScrapedJobData.mk "Senior Data Scientist" [] "" [] [] none)) none none ⊆
      {"python", "machine", "learning", "tensorflow", "pandas", "sql"}) ∧
    "machine learning" ∈ (buildQueryFull none
        (some (ScrapedJobData.mk "Senior Data Scientist" [] "" [] [] none)) none none).2 ∧
    ¬((buildQueryFull none
        (some (ScrapedJobData.mk "Senior Data Scientist" [] "" [] [] none)) none none).2 ⊆
      {"python", "machine", "learning", "tensorflow", "pandas", "sql"}) ∧
    buildQueryText_lite none
        (some (ScrapedJobData.mk "Senior Data Scientist" [] "" [] [] none)) none none = "" := by
  decide

/-- C5 (amended): for `skills = []`, `role = "Senior Data Scientist"` the
role-inference fallback yields `filter_keywords =
{"python", "machine learning", "tensorflow", "pandas"}` in the lite agent
(first 4 table entries) and the same plus `"sql"` in the full agent (first
5), where `"machine learning"` is a single two-word entry; the full agent's
derived `query_text` is the non-empty
`"python machine learning tensorflow pandas sql"`, while the lite agent's
retrieve-level `query_text` is empty. -/
theorem C5_role_inference_fallback :
    extract_filter_keywords_lite
        (some (ScrapedJobData.mk "Senior Data Scientist" [] "" [] [] none)) none none =
      {"python", "machine learning", "tensorflow", "pandas"} ∧
    (buildQueryFull none
        (some (ScrapedJobData.mk "Senior Data Scientist" [] "" [] [] none)) none none).2 =
      {"python", "machine learning", "tensorflow", "pandas", "sql"} ∧
    joinSep " " (buildQueryFull none
        (some (ScrapedJobData.mk "Senior Data Scientist" [] "" [] [] none)) none none).1 =
      "python machine learning tensorflow pandas sql" ∧
    buildQueryText_lite none
        (some (ScrapedJobData.mk "Senior Data Scientist" [] "" [] [] none)) none none = "" := by
  decide

/-- C6: for job skills `["Health Insurance", "Python", "401k"]` the derived
`filter_keywords` (lite agent's extraction and the full agent's inline
extraction) contains `"python"` and contains none of `"insurance"`,
`"health"`, `"401k"` — the exclusion list removes both whole phrases and
individual tokens. -/
theorem C6_exclusion_list :
    "python" ∈ extract_filter_keywords_lite
        (some (ScrapedJobData.mk "" ["Health Insurance", "Python", "401k"] "" [] [] none))
        none none ∧
    "insurance" ∉ extract_filter_keywords_lite
        (some (ScrapedJobData.mk "" ["Health Insurance", "Python", "401k"] "" [] [] none))
        none none ∧
    "health" ∉ extract_filter_keywords_lite
        (some (ScrapedJobData.mk "" ["Health Insurance", "Python", "401k"] "" [] [] none))
        none none ∧
    "401k" ∉ extract_filter_keywords_lite
        (some (ScrapedJobData.mk "" ["Health Insurance", "Python", "401k"] "" [] [] none))
        none none ∧
    "python" ∈ (buildQueryFull none
        (some (ScrapedJobData.mk "" ["Health Insurance", "Python", "401k"] "" [] [] none))
        none none).2 ∧
    "insurance" ∉ (buildQueryFull none
        (some (ScrapedJobData.mk "" ["Health Insurance", "Python", "401k"] "" [] [] none))
        none none).2 ∧
    "health" ∉ (buildQueryFull none
        (some (ScrapedJobData.mk "" ["Health Insurance", "Python", "401k"] "" [] [] none))
        none none).2 ∧
    "401k" ∉ (buildQueryFull none
        (some (ScrapedJobData.mk "" ["Health Insurance", "Python", "401k"] "" [] [] none))
        none none).2 := by
  decide

theorem scanAux_tokens_wf :
    ∀ (fuel : Nat) (p : Option Char) (l : List Char) (t : List Char),
      t ∈ scanAux fuel p l → t ≠ [] ∧ t.all isClassCh = true := by
  intro fuel
  induction fuel with
  | zero => intro p l t h; simp [scanAux] at h
  | succ n ih =>
    intro p l t h
    match l with
    | [] => simp [scanAux] at h
    | c :: rest =>
      simp only [scanAux] at h
      by_cases hb : (isClassCh c && startBoundary p c) = true
      · rw [if_pos hb] at h
        rcases hcut : bestCut ((c :: rest).takeWhile isClassCh)
            (((c :: rest).dropWhile isClassCh).head?) with _ | k
        · rw [hcut] at h
          exact ih _ _ _ h
        · rw [hcut] at h
          rcases List.mem_cons.mp h with rfl | hmem
          · have hk1 : 1 ≤ k := bestCutFrom_pos _ _ _ _ hcut
            have hk2 : k ≤ ((c :: rest).takeWhile isClassCh).length :=
              bestCutFrom_le _ _ _ _ hcut
            constructor
            · intro hc
              have := congrArg List.length hc
              rw [List.length_take] at this
              simp only [List.length_nil] at this
              omega
            · rw [List.all_eq_true]
              intro x hx
              exact List.mem_takeWhile_imp (List.mem_of_mem_take hx)
          · exact ih _ _ _ hmem
      · rw [if_neg hb] at h
        exact ih _ _ _ h

theorem tokenize_tokens_wf (s t : String) (ht : t ∈ tokenize s) :
    t ≠ "" ∧ t.data.all isClassCh = true := by
  unfold tokenize at ht
  rw [List.mem_toFinset, List.mem_map] at ht
  obtain ⟨l, hl, rfl⟩ := ht
  obtain ⟨hne, hall⟩ := scanAux_tokens_wf _ _ _ _ hl
  exact ⟨fun hc => hne (by simpa using congrArg String.data hc), hall⟩

/-- C7 counterexample: the regex `\b[a-zA-Z0-9+#]+\b` requires a word
boundary at both ends of each match, so the trailing `+`/`#` of `"c++"` and
`"c#"` are dropped: `tokenize("C++") = {"c"}`, not `{"c++"}`. -/
theorem C7_counterexample :
    tokenize "C++" = {"c"} ∧ tokenize "C++" ≠ {"c++"} ∧ "c++" ∉ tokenize "C++" ∧
    tokenize "C#" = {"c"} ∧ "c#" ∉ tokenize "C#" := by
  decide

/-- C7 (amended): `tokenize` lower-cases its input and returns the set of
`[a-zA-Z0-9+#]` runs delimited by the regex word boundary `\b`: every token
is a non-empty string of characters from the class, interior `+`/`#` survive
(`tokenize "c++11" = {"c++11"}`), but a trailing `+`/`#` followed by a
non-word character or the end of the string is stripped
(`tokenize "C++" = {"c"}`, `tokenize "C#" = {"c"}`); the empty string maps
to the empty set. -/
theorem C7_tokenize_behaviour :
    (∀ (s t : String), t ∈ tokenize s → t ≠ "" ∧ t.data.all isClassCh = true) ∧
    tokenize "" = ∅ ∧
    tokenize "c++11" = {"c++11"} ∧
    tokenize "Hello, World" = {"hello", "world"} ∧
    tokenize "C++" = {"c"} ∧
    tokenize "C#" = {"c"} :=
  ⟨tokenize_tokens_wf, by decide, by decide, by decide, by decide, by decide⟩

theorem C7_tokenize_behaviour_witness :
    "c" ≠ "" ∧ "c".data.all isClassCh = true :=
  C7_tokenize_behaviour.1 "C++" "c" (by decide)

theorem pyClamp01_mem (d : ℚ) : 0 ≤ pyMax 0 (pyMin 1 d) ∧ pyMax 0 (pyMin 1 d) ≤ 1 := by
  unfold pyMax pyMin
  split_ifs <;> constructor <;> linarith

theorem pyMin_one_mem {x : ℚ} (hx : 0 ≤ x) : 0 ≤ pyMin 1 x ∧ pyMin 1 x ≤ 1 := by
  unfold pyMin
  split_ifs <;> constructor <;> linarith

theorem pyMin_nonneg {a b : ℚ} (ha : 0 ≤ a) (hb : 0 ≤ b) : 0 ≤ pyMin a b := by
  unfold pyMin
  split_ifs <;> linarith

theorem rankLoopFull_forall {P : RetrievedItem → Prop} (fk : Finset String) (top_k : Nat) :
    ∀ (rows : List (Meta × ℚ)) (acc : List RetrievedItem),
      (∀ it ∈ acc, P it) → (∀ m d, P (mkRetrievedFull m d)) →
      ∀ it ∈ rankLoopFull fk top_k rows acc, P it := by
  intro rows
  induction rows with
  | nil =>
    intro acc hacc hmk it hit
    simp only [rankLoopFull] at hit
    exact hacc it hit
  | cons row rest ih =>
    intro acc hacc hmk it hit
    obtain ⟨m, d⟩ := row
    simp only [rankLoopFull] at hit
    by_cases hm : (if fk = ∅ then True
      else (∃ kw ∈ fk, strContains (pyLower m.techstack) kw = true) ∨
        (d < 8 / 10 ∧
          COMMON_SKILL_KEYWORDS.any (fun ckw => strContains (pyLower m.techstack) ckw) = true))
    · rw [if_pos hm] at hit
      by_cases hlen : top_k ≤ acc.length
      · rw [if_pos hlen] at hit
        exact hacc it hit
      · rw [if_neg hlen] at hit
        refine ih _ ?_ hmk it hit
        intro x hx
        rcases List.mem_append.mp hx with hx | hx
        · exact hacc x hx
        · rw [List.mem_singleton] at hx
          subst hx
          exact hmk m d
    · rw [if_neg hm] at hit
      exact ih _ hacc hmk it hit

theorem retrieve_full_score_range (top_k : Nat)
    (backend : String → Nat → Except String (List (Meta × ℚ)))
    (persona : Option PersonaOutput) (sd : Option ScrapedJobData)
    (product industry : Option String) :
    ∀ it ∈ retrieve_full top_k backend persona sd product industry,
      0 ≤ it.similarity_score ∧ it.similarity_score ≤ 1 := by
  intro it hit
  unfold retrieve_full at hit
  dsimp only at hit
  split at hit
  · simp at hit
  · split at hit
    · simp at hit
    · exact rankLoopFull_forall (P := fun x => 0 ≤ x.similarity_score ∧ x.similarity_score ≤ 1)
        _ _ _ [] (by simp) (fun m d => pyClamp01_mem (1 - d)) it hit
theorem retrieve_lite_score_range (st : LiteState) (persona : Option PersonaOutput)
    (sd : Option ScrapedJobData) (product industry : Option String) :
    ∀ it ∈ retrieve_lite st persona sd product industry,
      0 ≤ it.similarity_score ∧ it.similarity_score ≤ 1 := by
  intro it hit
  unfold retrieve_lite at hit
  split at hit
  · simp at hit
  · dsimp only at hit
    rw [List.mem_map] at hit
    obtain ⟨e, he, rfl⟩ := hit
    have he2 := (sortDescBy_perm Prod.snd _).mem_iff.mp (List.mem_of_mem_take he)
    rw [List.mem_filterMap] at he2
    obtain ⟨item, _, hf⟩ := he2
    split at hf
    · injection hf with hf
      subst hf
      refine pyMin_one_mem ?_
      refine add_nonneg (calculate_similarity_nonneg _ _) (pyMin_nonneg (by norm_num) ?_)
      positivity
    · exact absurd hf (by simp)

theorem retrieve_template_score_range (top_k : Nat)
    (templates_file : Option (List EmailTemplate))
    (backend : String → Nat → Except String (List (String × ℚ)))
    (persona : PersonaOutput) (product industry : String) (res : List RetrievedTemplate)
    (hres : retrieve_template top_k templates_file backend persona product industry =
      Except.ok res) :
    ∀ rt ∈ res, 0 ≤ rt.similarity_score ∧ rt.similarity_score ≤ 1 := by
  intro rt hrt
  unfold retrieve_template at hres
  dsimp only at hres
  split at hres
  · exact absurd hres (by simp)
  · split at hres
    · injection hres with hres
      subst hres
      simp at hrt
    · injection hres with hres
      subst hres
      rw [List.mem_filterMap] at hrt
      obtain ⟨r, _, hr⟩ := hrt
      split at hr
      · injection hr with hr
        subst hr
        exact pyClamp01_mem (1 - r.2)
      · exact absurd hr (by simp)

theorem retrieve_pinecone_score_range (top_k : Nat)
    (backend : String → Nat → List PineMatch)
    (persona : Option PersonaOutput) (sd : Option ScrapedJobData)
    (product industry : Option String)
    (hb : ∀ q k m, m ∈ backend q k → 0 ≤ m.score ∧ m.score ≤ 1) :
    ∀ it ∈ retrieve_pinecone top_k backend persona sd product industry,
      0 ≤ it.similarity_score ∧ it.similarity_score ≤ 1 := by
  intro it hit
  unfold retrieve_pinecone at hit
  dsimp only at hit
  split at hit
  · simp at hit
  · rw [List.mem_map] at hit
    obtain ⟨m, hm, rfl⟩ := hit
    exact hb _ _ m hm

/-- C8 counterexample: the Pinecone portfolio agent passes the backend score
through unclamped, so a backend score of `2` appears verbatim as
`similarity_score`, outside `[0, 1]`. -/
theorem C8_counterexample :
    (retrieve_pinecone 3 (fun _ _ => [PineMatch.mk (Meta.mk "Python" "https://x") 2])
        none none (some "Python") none).map RetrievedItem.similarity_score = [2] ∧
    ¬((2 : ℚ) ≤ 1) := by
  exact ⟨by decide, by decide⟩

/-- C8 (amended): the full (vector-store) portfolio agent, the template
agent and the lite agent clamp/cap `similarity_score` into `[0, 1]` on every
returned record; the Pinecone portfolio variant returns the backend score
unmodified, so its scores lie in `[0, 1]` exactly when the backend's do. -/
theorem C8_similarity_score_range :
    (∀ (top_k : Nat) (backend : String → Nat → Except String (List (Meta × ℚ)))
        (persona : Option PersonaOutput) (sd : Option ScrapedJobData)
        (product industry : Option String),
      ∀ it ∈ retrieve_full top_k backend persona sd product industry,
        0 ≤ it.similarity_score ∧ it.similarity_score ≤ 1) ∧
    (∀ (top_k : Nat) (templates_file : Option (List EmailTemplate))
        (backend : String → Nat → Except String (List (String × ℚ)))
        (persona : PersonaOutput) (product industry : String) (res : List RetrievedTemplate),
      retrieve_template top_k templates_file backend persona product industry = Except.ok res →
      ∀ rt ∈ res, 0 ≤ rt.similarity_score ∧ rt.similarity_score ≤ 1) ∧
    (∀ (st : LiteState) (persona : Option PersonaOutput) (sd : Option ScrapedJobData)
        (product industry : Option String),
      ∀ it ∈ retrieve_lite st persona sd product industry,
        0 ≤ it.similarity_score ∧ it.similarity_score ≤ 1) ∧
    (∀ (top_k : Nat) (backend : String → Nat → List PineMatch)
        (persona : Option PersonaOutput) (sd : Option ScrapedJobData)
        (product industry : Option String),
      (∀ q k m, m ∈ backend q k → 0 ≤ m.score ∧ m.score ≤ 1) →
      ∀ it ∈ retrieve_pinecone top_k backend persona sd product industry,
        0 ≤ it.similarity_score ∧ it.similarity_score ≤ 1) :=
  ⟨retrieve_full_score_range,
   fun top_k tf backend persona product industry res hres =>
     retrieve_template_score_range top_k tf backend persona product industry res hres,
   retrieve_lite_score_range,
   fun top_k backend persona sd product industry hb =>
     retrieve_pinecone_score_range top_k backend persona sd product industry hb⟩

theorem C8_similarity_score_range_witness :
    0 ≤ (formatPineMatch (PineMatch.mk (Meta.mk "Python" "https://x") 1)).similarity_score ∧
    (formatPineMatch (PineMatch.mk (Meta.mk "Python" "https://x") 1)).similarity_score ≤ 1 :=
  C8_similarity_score_range.2.2.2 3
    (fun _ _ => [PineMatch.mk (Meta.mk "Python" "https://x") 1])
    none none (some "Python") none
    (by intro q k m hm; rw [List.mem_singleton] at hm; subst hm; exact ⟨by decide, by decide⟩)
    (formatPineMatch (PineMatch.mk (Meta.mk "Python" "https://x") 1))
    (by decide)

/-- C9 counterexample: when the backing flat file does not exist
(`csv = none`), a valid `add_portfolio_item` succeeds and appends to the
live store, but nothing is appended to the backing flat file — contradicting
"appended both to the live candidate store and to the backing flat file". -/
theorem C9_counterexample :
    add_portfolio_item_lite (LiteState.mk 3 0 [] none) "Go Kubernetes" "https://x.io/p" =
      Except.ok (LiteState.mk 3 0
        [PortfolioItem.mk "portfolio_0" "Go Kubernetes" "https://x.io/p" {"go", "kubernetes"}]
        none) := by
  decide

/-- C9 (amended): `add_portfolio_item(techstack, link)` (lite and full
agents) raises a `ValueError` before any mutation whenever `techstack`
strips to empty or `link` lacks an `http(s)://` prefix, so the store is
unchanged; on success the item is appended to the live store, and appended
to the backing flat file only when that file already exists. -/
theorem C9_add_portfolio_item (st : LiteState) (stf : FullState) (techstack link : String) :
    (pyStrip techstack = "" →
      add_portfolio_item_lite st techstack link = Except.error "Techstack cannot be empty" ∧
      add_portfolio_item_full stf techstack link = Except.error "Techstack cannot be empty") ∧
    (pyStrip techstack ≠ "" →
      (startsWithS link "http://" || startsWithS link "https://") = false →
      add_portfolio_item_lite st techstack link =
        Except.error "Link must start with http:// or https://" ∧
      add_portfolio_item_full stf techstack link =
        Except.error "Link must start with http:// or https://") ∧
    (pyStrip techstack ≠ "" →
      (startsWithS link "http://" || startsWithS link "https://") = true →
      add_portfolio_item_lite st techstack link = Except.ok
        { st with
          portfolio_items := st.portfolio_items ++
            [PortfolioItem.mk ("portfolio_" ++ toString st.portfolio_items.length)
              techstack link (tokenize techstack)]
          csv := st.csv.map (fun rows => rows ++ [(techstack, link)]) } ∧
      add_portfolio_item_full stf techstack link = Except.ok
        { stf with
          collection := stf.collection ++
            [("portfolio_" ++ toString stf.collection.length, techstack,
              Meta.mk techstack link)]
          csv := stf.csv.map (fun rows => rows ++ [(techstack, link)]) }) := by
  refine ⟨fun h1 => ?_, fun h1 h2 => ?_, fun h1 h2 => ?_⟩
  · constructor <;> simp [add_portfolio_item_lite, add_portfolio_item_full, h1]
  · constructor <;> simp [add_portfolio_item_lite, add_portfolio_item_full, h1, h2]
  · constructor <;> simp [add_portfolio_item_lite, add_portfolio_item_full, h1, h2]

theorem C9_add_portfolio_item_witness :
    add_portfolio_item_lite (LiteState.mk 3 0 [] (some [])) "  " "https://x" =
      Except.error "Techstack cannot be empty" ∧
    add_portfolio_item_lite (LiteState.mk 3 0 [] (some [])) "Go" "ftp://x" =
      Except.error "Link must start with http:// or https://" ∧
    add_portfolio_item_lite (LiteState.mk 3 0 [] (some [])) "Go" "https://x" =
      Except.ok
        { LiteState.mk 3 0 [] (some []) with
          portfolio_items := [] ++
            [PortfolioItem.mk ("portfolio_" ++ toString ([] : List PortfolioItem).length)
              "Go" "https://x" (tokenize "Go")]
          csv := (some ([] : List (String × String))).map
            (fun rows => rows ++ [("Go", "https://x")]) } :=
  ⟨((C9_add_portfolio_item (LiteState.mk 3 0 [] (some [])) (FullState.mk 3 [] none)
      "  " "https://x").1 (by decide)).1,
   ((C9_add_portfolio_item (LiteState.mk 3 0 [] (some [])) (FullState.mk 3 [] none)
      "Go" "ftp://x").2.1 (by decide) (by decide)).1,
   ((C9_add_portfolio_item (LiteState.mk 3 0 [] (some [])) (FullState.mk 3 [] none)
      "Go" "https://x").2.2 (by decide) (by decide)).1⟩

theorem keyword_search_empty_query_eq (query : String) (documents : List SearchDoc)
    (top_k : Nat) (hq : tokenize query = ∅) :
    (keyword_search query documents top_k).map ScoredDoc.similarity_score =
      List.replicate (min top_k documents.length) 0 := by
  unfold keyword_search
  rw [hq]
  dsimp only
  have hfun : (fun doc : SearchDoc =>
      ScoredDoc.mk doc (calculate_similarity ∅ (tokenize doc.text))) =
      (fun doc : SearchDoc => ScoredDoc.mk doc 0) := by
    funext doc
    rw [calculate_similarity_empty _ _ (Or.inl rfl)]
  rw [hfun]
  refine List.eq_replicate_iff.mpr ⟨?_, ?_⟩
  · rw [List.length_map, List.length_take,
      (sortDescBy_perm ScoredDoc.similarity_score _).length_eq, List.length_map]
  · intro b hb
    rw [List.mem_map] at hb
    obtain ⟨e, he, rfl⟩ := hb
    have he2 := (sortDescBy_perm ScoredDoc.similarity_score _).mem_iff.mp
      (List.mem_of_mem_take he)
    rw [List.mem_map] at he2
    obtain ⟨d, _, rfl⟩ := he2
    rfl

/-- C10: `keyword_search` has no empty-query short-circuit: when the query
tokenizes to the empty set and the document list is non-empty, it still
returns exactly `min(top_k, |documents|)` results, every one carrying
`similarity_score` exactly `0.0`. -/
theorem C10_keyword_search_empty_query (query : String) (documents : List SearchDoc)
    (top_k : Nat) (hq : tokenize query = ∅) (hd : documents ≠ []) :
    (keyword_search query documents top_k).length = min top_k documents.length ∧
    (keyword_search query documents top_k).map ScoredDoc.similarity_score =
      List.replicate (min top_k documents.length) 0 := by
  have h := keyword_search_empty_query_eq query documents top_k hq
  refine ⟨?_, h⟩
  have := congrArg List.length h
  rw [List.length_map, List.length_replicate] at this
  exact this

theorem C10_keyword_search_empty_query_witness :
    (keyword_search "" [SearchDoc.mk "d1" "python"] 3).length = min 3 1 ∧
    (keyword_search "" [SearchDoc.mk "d1" "python"] 3).map ScoredDoc.similarity_score =
      List.replicate (min 3 1) 0 :=
  C10_keyword_search_empty_query "" [SearchDoc.mk "d1" "python"] 3 (by decide) (by decide)

end EmailCraft
